import Mathlib

/-
Shallow embedding of the daily traffic prediction pipeline in
src/daily_update.py (class TrafficPredictor and the module-level main).

Modelling conventions:
* A pandas Timestamp is a pair (epochDay, minuteOfDay): `epochDay` counts
  days since 1970-01-01 (so `.date()` is `epochDay`), and `minuteOfDay`
  is the time-of-day in minutes, used by `between_time`.
* `dayofweek` follows pandas: Monday = 0 ... Sunday = 6; 1970-01-01 was a
  Thursday (dayofweek 3), hence `(epochDay + 3) % 7`.
* A DataFrame is a list of row structures; adding a column is wrapping
  each row in an extension structure holding exactly the new fields.
* The `holidays.Canada(prov='ON')` calendar is an external collaborator,
  embedded as a parameter `cal : Int → Option String` mapping an epoch
  day to the official holiday name when the date is in the calendar
  (membership test `date in ca_holidays` is `(cal d).isSome`, and
  `ca_holidays.get(date)` is the carried name).
* The three XGBoost regressors are opaque row-wise functions; a batched
  `model.predict(X)` over n rows is the map of the function over the n
  feature records.  Numeric weather and prediction values are embedded
  as integers (their arithmetic is never inspected by the pipeline).
* Exceptions in the weather fetch are embedded as `none`: the source's
  `get_weather_forecast` catches any exception and returns None.
-/

namespace DailyUpdate

structure Timestamp where
  epochDay : Int
  minuteOfDay : Nat
deriving DecidableEq, Repr

/-- pandas `Timestamp.dayofweek`: Monday = 0, ..., Sunday = 6. -/
def dayofweek (ts : Timestamp) : Int :=
  (ts.epochDay + 3) % 7

/-- One row of the weather table: `date` plus the four weather feature
columns used by the models. -/
structure ForecastRow where
  date : Timestamp
  temperature_2m_mean : Int
  precipitation_sum : Int
  wind_speed_10m_max : Int
  wind_direction_10m_dominant : Int
deriving DecidableEq, Repr

/-- The `special_dates` dict literal in `add_holiday_info`, keyed by epoch
day: 2026-11-27, 2026-12-24, 2026-12-31, 2025-11-28, 2025-12-24,
2025-12-31. -/
def special_dates : Int → Option String := fun d =>
  if d = 20784 then some "Black Friday"
  else if d = 20811 then some "Christmas Eve"
  else if d = 20818 then some "New Year\x27s Eve"
  else if d = 20420 then some "Black Friday"
  else if d = 20446 then some "Christmas Eve"
  else if d = 20453 then some "New Year\x27s Eve"
  else none

/-- The nested `is_holiday` of `add_holiday_info`: weekend check first,
then official-calendar membership, then the special-dates table. -/
def is_holiday (cal : Int → Option String) (date_obj : Timestamp) : Nat :=
  if dayofweek date_obj ≥ 5 then 1
  else if (cal date_obj.epochDay).isSome then 1
  else if (special_dates date_obj.epochDay).isSome then 1
  else 0

/-- The nested `get_holiday_name` of `add_holiday_info`: Saturday/Sunday
names first, then the official holiday name, then the special label. -/
def get_holiday_name (cal : Int → Option String) (date_obj : Timestamp) : String :=
  if dayofweek date_obj = 5 then "Saturday"
  else if dayofweek date_obj = 6 then "Sunday"
  else
    match cal date_obj.epochDay with
    | some n => n
    | none =>
      match special_dates date_obj.epochDay with
      | some n => n
      | none => ""

/-- A forecast row after `add_holiday_info`: the two added columns. -/
structure AnnotatedRow extends ForecastRow where
  holidays : Nat
  holiday_name : String
deriving DecidableEq, Repr

/-- `add_holiday_info`: applies `is_holiday` and `get_holiday_name` to the
`date` column of every row (the prints and counters have no effect on the
returned table). -/
def add_holiday_info (cal : Int → Option String) (df : List ForecastRow) :
    List AnnotatedRow :=
  df.map (fun r =>
    { toForecastRow := r
      holidays := is_holiday cal r.date
      holiday_name := get_holiday_name cal r.date })

/-- The stage-1 feature record `X_stage1`: the `stage1_features` column
selection of `predict_stage1`. -/
structure Stage1Features where
  holidays : Nat
  temperature_2m_mean : Int
  precipitation_sum : Int
  wind_speed_10m_max : Int
  wind_direction_10m_dominant : Int
deriving DecidableEq, Repr

def stage1_features (r : AnnotatedRow) : Stage1Features :=
  { holidays := r.holidays
    temperature_2m_mean := r.temperature_2m_mean
    precipitation_sum := r.precipitation_sum
    wind_speed_10m_max := r.wind_speed_10m_max
    wind_direction_10m_dominant := r.wind_direction_10m_dominant }

/-- The stage-2 feature record `X_stage2`: the `stage2_features` column
selection of `predict_stage2`. -/
structure Stage2Features where
  visitors : Int
  holidays : Nat
  vehicles : Int
  temperature_2m_mean : Int
  precipitation_sum : Int
  wind_speed_10m_max : Int
  wind_direction_10m_dominant : Int
deriving DecidableEq, Repr

/-- The three loaded XGBoost regressors of `TrafficPredictor`, as opaque
row-wise functions (a batched `predict` is their map over the rows). -/
structure Models where
  model_visitors : Stage1Features → Int
  model_vehicles : Stage1Features → Int
  model_traffic : Stage2Features → Int

/-- A row after `predict_stage1`: exactly the two added prediction
columns. -/
structure Stage1Row extends AnnotatedRow where
  predicted_visitors : Int
  predicted_vehicles : Int
deriving DecidableEq, Repr

/-- `predict_stage1`: computes the two prediction vectors over the whole
batch, then assigns them as the columns `predicted_visitors` and
`predicted_vehicles`. -/
def predict_stage1 (m : Models) (weather_data : List AnnotatedRow) :
    List Stage1Row :=
  let predicted_visitors := weather_data.map (fun r => m.model_visitors (stage1_features r))
  let predicted_vehicles := weather_data.map (fun r => m.model_vehicles (stage1_features r))
  (weather_data.zip (predicted_visitors.zip predicted_vehicles)).map
    (fun rp =>
      { toAnnotatedRow := rp.1
        predicted_visitors := rp.2.1
        predicted_vehicles := rp.2.2 })

/-- A row of `batch_data_stage2`, the internal copy made by
`predict_stage2`: the stage-1 row plus the two alias columns `visitors`
and `vehicles`. -/
structure Stage2AliasRow extends Stage1Row where
  visitors : Int
  vehicles : Int
deriving DecidableEq, Repr

/-- The `batch_data_stage2` table built inside `predict_stage2`: a copy
of the stage-1 output with `visitors` and `vehicles` assigned from
`predicted_visitors` and `predicted_vehicles`. -/
def stage2_batch (data_with_stage1 : List Stage1Row) : List Stage2AliasRow :=
  data_with_stage1.map (fun r =>
    { toStage1Row := r
      visitors := r.predicted_visitors
      vehicles := r.predicted_vehicles })

def stage2_features (b : Stage2AliasRow) : Stage2Features :=
  { visitors := b.visitors
    holidays := b.holidays
    vehicles := b.vehicles
    temperature_2m_mean := b.temperature_2m_mean
    precipitation_sum := b.precipitation_sum
    wind_speed_10m_max := b.wind_speed_10m_max
    wind_direction_10m_dominant := b.wind_direction_10m_dominant }

/-- A row after `predict_stage2`: exactly the one added column. -/
structure Stage2Row extends Stage1Row where
  predicted_traffic_count : Int
deriving DecidableEq, Repr

/-- `predict_stage2`: builds the aliased copy, predicts traffic over it,
and assigns the prediction vector as `predicted_traffic_count` on the
original (non-aliased) stage-1 table, which it returns. -/
def predict_stage2 (m : Models) (data_with_stage1 : List Stage1Row) :
    List Stage2Row :=
  let batch_data_stage2 := stage2_batch data_with_stage1
  let predicted_traffic := batch_data_stage2.map (fun b => m.model_traffic (stage2_features b))
  (data_with_stage1.zip predicted_traffic).map
    (fun rp =>
      { toStage1Row := rp.1
        predicted_traffic_count := rp.2 })

/-- pandas `DataFrame.between_time(start, end)` on the `date` index,
inclusive at both ends, with times as minutes-of-day; order preserved. -/
def between_time (startMin endMin : Nat) (df : List ForecastRow) :
    List ForecastRow :=
  df.filter (fun r =>
    decide (startMin ≤ r.date.minuteOfDay) && decide (r.date.minuteOfDay ≤ endMin))

/-- `get_weather_forecast`: the external hourly fetch is the argument
(`none` when it raised, caught by the source's except-clause which
returns None); on success the hourly table is reduced with
`between_time('11:59', '12:01')`, i.e. minutes 719 to 721. -/
def get_weather_forecast (hourly : Option (List ForecastRow)) :
    Option (List ForecastRow) :=
  match hourly with
  | none => none
  | some hourly_df => some (between_time 719 721 hourly_df)

/-- `run_full_prediction`: fetch, halt on None, else annotate and run the
two stages. -/
def run_full_prediction (cal : Int → Option String) (m : Models)
    (hourly : Option (List ForecastRow)) : Option (List Stage2Row) :=
  match get_weather_forecast hourly with
  | none => none
  | some weather_data =>
      some (predict_stage2 m (predict_stage1 m (add_holiday_info cal weather_data)))

/-- The reporting branch of `main`: charts, HTML and CSV run exactly when
`run_full_prediction` returned a table (`if batch_data is None: return`
guards them), so `true` means downstream reporting executed. -/
def main_reported (cal : Int → Option String) (m : Models)
    (hourly : Option (List ForecastRow)) : Bool :=
  match run_full_prediction cal m hourly with
  | none => false
  | some _ => true

/-- An empty official holiday calendar, for stubbing. -/
def stubCal : Int → Option String := fun _ => none

/-- A calendar marking 2025-12-27 (epoch day 20449, a Saturday) as an
official holiday, to exercise the weekend-versus-calendar overlap. -/
def calSat : Int → Option String := fun d =>
  if d = 20449 then some "Observed Holiday" else none

/-- A calendar marking 2025-11-28 (epoch day 20420, a Friday, also the
Black Friday entry of `special_dates`) as an official holiday. -/
def calBF : Int → Option String := fun d =>
  if d = 20420 then some "Holiday X" else none

/-- Constant regressors, the stubbed deterministic models of the spec. -/
def stubModels : Models :=
  { model_visitors := fun _ => 100
    model_vehicles := fun _ => 50
    model_traffic := fun _ => 30 }

/-- A weather row at a given epoch day and minute-of-day with the fixed
weather values of the spec scenario. -/
def mkRow (d : Int) (minute : Nat) : ForecastRow :=
  { date := { epochDay := d, minuteOfDay := minute }
    temperature_2m_mean := 5
    precipitation_sum := 0
    wind_speed_10m_max := 10
    wind_direction_10m_dominant := 180 }

/-- `dayofweek` always lands in [0, 7). -/
theorem dayofweek_lt (ts : Timestamp) : 0 ≤ dayofweek ts ∧ dayofweek ts < 7 := by
  unfold dayofweek
  constructor
  · exact Int.emod_nonneg _ (by decide)
  · exact Int.emod_lt_of_pos _ (by decide)

/-- Every label in the `special_dates` table is a non-empty string. -/
theorem special_label_ne (d : Int) (n : String) (h : special_dates d = some n) :
    n ≠ "" := by
  unfold special_dates at h
  repeat' split at h
  all_goals first
    | exact Option.noConfusion h
    | (injection h with h2; subst h2; decide)

/-- Every name carried by `calBF` is a non-empty string. -/
theorem calBF_nonempty (d : Int) (n : String) (h : calBF d = some n) : n ≠ "" := by
  unfold calBF at h
  split at h
  · injection h with h2; subst h2; decide
  · exact Option.noConfusion h

/-- Mapping a projection over the three-column zip-assignment pattern of
`predict_stage1` recovers the original list. -/
theorem zip_map_map_proj {α β γ δ : Type} (l : List α) (f : α → β) (g : α → γ)
    (mk : α → β → γ → δ) (proj : δ → α) (hproj : ∀ a b c, proj (mk a b c) = a) :
    ((l.zip ((l.map f).zip (l.map g))).map (fun rp => mk rp.1 rp.2.1 rp.2.2)).map proj = l := by
  induction l with
  | nil => rfl
  | cons a l ih => simp [hproj, ih]

/-- C1: a Saturday or Sunday date is flagged as a day off with label
"Saturday" or "Sunday" respectively, whatever the official calendar
(the theorem quantifies over every calendar, so in particular over ones
containing the date) and whatever the special-dates table holds. -/
theorem weekend_wins (cal : Int → Option String) (ts : Timestamp)
    (h : dayofweek ts = 5 ∨ dayofweek ts = 6) :
    is_holiday cal ts = 1 ∧
      get_holiday_name cal ts = (if dayofweek ts = 5 then "Saturday" else "Sunday") := by
  unfold is_holiday get_holiday_name
  rcases h with h | h <;> simp [h]

/-- Witness for C1 at 2025-12-27, a Saturday that `calSat` also marks as
an official holiday: the weekend outcome still wins. -/
theorem weekend_wins_w :
    is_holiday calSat { epochDay := 20449, minuteOfDay := 0 } = 1 ∧
      get_holiday_name calSat { epochDay := 20449, minuteOfDay := 0 } =
        (if dayofweek { epochDay := 20449, minuteOfDay := 0 } = 5 then "Saturday" else "Sunday") :=
  weekend_wins calSat { epochDay := 20449, minuteOfDay := 0 } (Or.inl (by decide))

/-- C6: for a weekday present both in the official calendar and in the
special-dates table, `get_holiday_name` returns the official holiday
name alone: the official name takes precedence over the override label. -/
theorem official_precedes_override (cal : Int → Option String) (ts : Timestamp)
    (hw : dayofweek ts < 5) (name : String) (hc : cal ts.epochDay = some name)
    (_hs : (special_dates ts.epochDay).isSome) :
    get_holiday_name cal ts = name := by
  have h5 : ¬ dayofweek ts = 5 := by omega
  have h6 : ¬ dayofweek ts = 6 := by omega
  unfold get_holiday_name
  simp [h5, h6, hc]

/-- Witness for C6 at 2025-11-28 (a Friday): in `calBF` as "Holiday X"
and in `special_dates` as "Black Friday"; the official name is returned. -/
theorem official_precedes_override_w :
    get_holiday_name calBF { epochDay := 20420, minuteOfDay := 0 } = "Holiday X" :=
  official_precedes_override calBF { epochDay := 20420, minuteOfDay := 0 }
    (by decide) "Holiday X" (by decide) (by decide)

/-- C7: a weekday in neither the official calendar nor the special-dates
table gets flag 0 and the empty label; both functions are total, so no
input date can raise. -/
theorem unknown_date_falls_through (cal : Int → Option String) (ts : Timestamp)
    (hw : dayofweek ts < 5) (hc : cal ts.epochDay = none)
    (hs : special_dates ts.epochDay = none) :
    is_holiday cal ts = 0 ∧ get_holiday_name cal ts = "" := by
  have hge : ¬ dayofweek ts ≥ 5 := by omega
  have h5 : ¬ dayofweek ts = 5 := by omega
  have h6 : ¬ dayofweek ts = 6 := by omega
  unfold is_holiday get_holiday_name
  simp [hge, h5, h6, hc, hs]

/-- Witness for C7 at 2025-12-22, a plain Monday. -/
theorem unknown_date_falls_through_w :
    is_holiday stubCal { epochDay := 20444, minuteOfDay := 0 } = 0 ∧
      get_holiday_name stubCal { epochDay := 20444, minuteOfDay := 0 } = "" :=
  unknown_date_falls_through stubCal { epochDay := 20444, minuteOfDay := 0 }
    (by decide) rfl (by decide)

/-- Pointwise agreement of the flag and the label, assuming every name in
the official calendar is non-empty. -/
theorem is_holiday_iff_name (cal : Int → Option String) (ts : Timestamp)
    (hcal : ∀ d n, cal d = some n → n ≠ "") :
    (is_holiday cal ts = 1 ↔ get_holiday_name cal ts ≠ "") := by
  obtain ⟨hlo, hhi⟩ := dayofweek_lt ts
  unfold is_holiday get_holiday_name
  by_cases h5 : dayofweek ts = 5
  · simp [h5]
  · by_cases h6 : dayofweek ts = 6
    · simp [h5, h6]
    · have hge : ¬ dayofweek ts ≥ 5 := by omega
      simp only [hge, if_false, h5, h6]
      cases hc : cal ts.epochDay with
      | some n => simpa using hcal ts.epochDay n hc
      | none =>
        cases hs : special_dates ts.epochDay with
        | some n => simpa using special_label_ne ts.epochDay n hs
        | none => simp

/-- C9: in the table returned by `add_holiday_info`, each row's
`holidays` flag is 1 exactly when its `holiday_name` is non-empty,
provided every official holiday name is non-empty (the special-date
labels are non-empty by `special_label_ne`). -/
theorem holiday_flag_iff_name (cal : Int → Option String) (df : List ForecastRow)
    (hcal : ∀ d n, cal d = some n → n ≠ "")
    (r : AnnotatedRow) (hr : r ∈ add_holiday_info cal df) :
    (r.holidays = 1 ↔ r.holiday_name ≠ "") := by
  unfold add_holiday_info at hr
  simp only [List.mem_map] at hr
  obtain ⟨fr, _, rfl⟩ := hr
  exact is_holiday_iff_name cal fr.date hcal

/-- Witness for C9 on the one-row table at 2025-11-28 with the `calBF`
calendar (non-empty names by `calBF_nonempty`). -/
theorem holiday_flag_iff_name_w :
    (({ toForecastRow := mkRow 20420 0, holidays := 1, holiday_name := "Holiday X" } :
        AnnotatedRow).holidays = 1 ↔
      ({ toForecastRow := mkRow 20420 0, holidays := 1, holiday_name := "Holiday X" } :
        AnnotatedRow).holiday_name ≠ "") :=
  holiday_flag_iff_name calBF [mkRow 20420 0] calBF_nonempty
    { toForecastRow := mkRow 20420 0, holidays := 1, holiday_name := "Holiday X" }
    (by decide)

/-- C2: the `visitors` and `vehicles` components of the feature records
that `predict_stage2` feeds to the traffic model (built by
`stage2_features` over `stage2_batch`) are, row for row, the stage-1
`predicted_visitors` and `predicted_vehicles` values. -/
theorem stage2_features_alias (rows : List Stage1Row) :
    ((stage2_batch rows).map stage2_features).map (fun f => (f.visitors, f.vehicles)) =
      rows.map (fun r => (r.predicted_visitors, r.predicted_vehicles)) := by
  simp only [stage2_batch, stage2_features, List.map_map]
  rfl

/-- C4: `predict_stage1` preserves the row count and every pre-existing
column of every row (projecting away the two added columns recovers the
input table exactly); by the shape of `Stage1Row`, the only additions
are the two numeric columns `predicted_visitors` and
`predicted_vehicles`. -/
theorem predict_stage1_frame (m : Models) (weather_data : List AnnotatedRow) :
    (predict_stage1 m weather_data).length = weather_data.length ∧
      (predict_stage1 m weather_data).map (fun r => r.toAnnotatedRow) = weather_data := by
  have key : (predict_stage1 m weather_data).map (fun r => r.toAnnotatedRow) = weather_data := by
    unfold predict_stage1
    exact zip_map_map_proj weather_data _ _
      (fun a b c =>
        ({ toAnnotatedRow := a, predicted_visitors := b, predicted_vehicles := c } : Stage1Row))
      (fun r : Stage1Row => r.toAnnotatedRow) (fun _ _ _ => rfl)
  exact ⟨by simpa using congrArg List.length key, key⟩

/-- C10: `predict_stage2` preserves the row count and every column of the
stage-1 table (projecting away `predicted_traffic_count` recovers the
input exactly); by the shape of `Stage2Row`, the returned rows carry no
`visitors`/`vehicles` alias columns — those exist only on the internal
`Stage2AliasRow` copy built by `stage2_batch`. -/
theorem predict_stage2_frame (m : Models) (rows : List Stage1Row) :
    (predict_stage2 m rows).length = rows.length ∧
      (predict_stage2 m rows).map (fun r => r.toStage1Row) = rows := by
  have key : (predict_stage2 m rows).map (fun r => r.toStage1Row) = rows := by
    unfold predict_stage2 stage2_batch
    induction rows with
    | nil => rfl
    | cons a t ih => simpa using ih
  exact ⟨by simpa using congrArg List.length key, key⟩

/-- C3 (amended): only a fetch that raised (embedded as `none`) makes
`run_full_prediction` halt before annotation and prediction and return
`None`, with `main` then skipping charts, HTML and CSV; no typed error
is involved. -/
theorem missing_forecast_halts (cal : Int → Option String) (m : Models) :
    run_full_prediction cal m none = none ∧ main_reported cal m none = false :=
  ⟨rfl, rfl⟩

/-- C3 (counterexample): a successful fetch of an empty hourly table is
not detected — `run_full_prediction` runs all stages and returns an
empty table rather than halting, and `main` does not skip downstream
reporting. -/
theorem empty_forecast_not_halted :
    run_full_prediction stubCal stubModels (some []) = some [] ∧
      main_reported stubCal stubModels (some []) = true :=
  ⟨rfl, rfl⟩

/-- C5 (amended): `get_weather_forecast` keeps exactly the hourly rows
whose time-of-day lies in the inclusive window 11:59-12:01; for
on-the-hour hourly data this is precisely the 12:00 row of each day —
the sample nearest local noon — and days without a sample in the window
contribute no row at all. -/
theorem noon_window_selection (h : List ForecastRow) (dl : List ForecastRow)
    (hdl : get_weather_forecast (some h) = some dl)
    (hhourly : ∀ r ∈ h, r.date.minuteOfDay % 60 = 0) :
    ∀ r, r ∈ dl ↔ (r ∈ h ∧ r.date.minuteOfDay = 720) := by
  have hdl2 : dl = between_time 719 721 h := (Option.some.inj hdl).symm
  subst hdl2
  intro r
  unfold between_time
  simp only [List.mem_filter, Bool.and_eq_true, decide_eq_true_eq]
  constructor
  · rintro ⟨hrh, h1, h2⟩
    have := hhourly r hrh
    exact ⟨hrh, by omega⟩
  · rintro ⟨hrh, h720⟩
    exact ⟨hrh, by omega, by omega⟩

/-- Witness for C5's amended statement on a three-sample day (11:00,
12:00, 13:00): the noon row is the one kept. -/
theorem noon_window_selection_w :
    (mkRow 20444 720 ∈ ([mkRow 20444 720] : List ForecastRow) ↔
      (mkRow 20444 720 ∈ [mkRow 20444 660, mkRow 20444 720, mkRow 20444 780] ∧
        (mkRow 20444 720).date.minuteOfDay = 720)) :=
  noon_window_selection [mkRow 20444 660, mkRow 20444 720, mkRow 20444 780]
    [mkRow 20444 720] rfl (by decide) (mkRow 20444 720)

/-- C5 (counterexample): an hourly table whose only sample for its day is
at 13:00 — the sample nearest local noon — yields no row for that day:
the reduction is a fixed 11:59-12:01 window, not nearest-to-noon. -/
theorem no_noon_sample_dropped :
    get_weather_forecast (some [mkRow 20444 780]) = some ([] : List ForecastRow) ∧
      ([mkRow 20444 780] : List ForecastRow) ≠ [] :=
  ⟨rfl, by decide⟩

/-- C8: `run_full_prediction` is a pure function of the calendar, the
models and the fetched forecast — the source reads no clock and no other
state inside the pipeline — so two invocations with equal stubbed models
and equal stubbed forecasts return equal result tables. -/
theorem pipeline_deterministic (cal : Int → Option String) (m1 m2 : Models)
    (h1 h2 : Option (List ForecastRow)) (hm : m1 = m2) (hh : h1 = h2) :
    run_full_prediction cal m1 h1 = run_full_prediction cal m2 h2 := by
  subst hm
  subst hh
  rfl

/-- Witness for C8 with the constant stub models on a one-row forecast. -/
theorem pipeline_deterministic_w :
    run_full_prediction stubCal stubModels (some [mkRow 20444 720]) =
      run_full_prediction stubCal stubModels (some [mkRow 20444 720]) :=
  pipeline_deterministic stubCal stubModels stubModels
    (some [mkRow 20444 720]) (some [mkRow 20444 720]) rfl rfl

end DailyUpdate
